import Mathlib

/-!
# Verification of the YunoHost CLI core against its specification

This file gives a shallow embedding, in Lean 4, of the core of the
`yunohost_cli` Python package:

* the command resolver (`MapAction.run` and its inner `handle_arg` from
  `actionsmap.py`),
* the session manager (`Server.login`, `Server.request`,
  `Server.assert_version` from `server.py`),
* the SSE event-stream consumer (`SSEEvent`, `Server.sse_logs` from
  `server.py`, and `show_sse_log` from `cli.py`),

together with theorems settling the specification's claims about them.
Python strings are modelled as Lean `String`s; the Python primitives used
by the source (`in` on strings, `str.replace`, `str.split(" ")`,
lexicographic `<` on strings) are re-implemented below on `List Char`
with structural recursion so that every definition evaluates inside the
kernel.
-/

/-! ## Python string primitives

`listIsPrefix p q` is `q.startswith(p)` on character lists.  -/

def listIsPrefix : List Char → List Char → Bool
  | [], _ => true
  | _ :: _, [] => false
  | a :: as, b :: bs => a == b && listIsPrefix as bs

/-- Python's substring test `pat in s` on character lists: `pat` occurs
contiguously somewhere in `s`. The empty pattern is contained in
everything, as in Python. -/
def listContains : List Char → List Char → Bool
  | pat, [] => listIsPrefix pat []
  | pat, c :: rest => listIsPrefix pat (c :: rest) || listContains pat rest

/-- Python's `pat in s` for strings (used by `actionsmap.py` as
`replacestring in uris` and `"<" in uris[0]`). -/
def pyIn (pat s : String) : Bool := listContains pat.toList s.toList

/-- One step of Python's `str.replace`: replace every non-overlapping
occurrence of `pat` by `rep`, scanning left to right. `fuel` bounds the
recursion (callers pass the length of the string, which suffices since
each step consumes at least one character when `pat` is nonempty). For
an empty `pat` this is the identity; the source only ever replaces
placeholders of the form `<name>`, which are nonempty. -/
def listReplaceAux : Nat → List Char → List Char → List Char → List Char
  | 0, _, _, s => s
  | _ + 1, _, _, [] => []
  | fuel + 1, pat, rep, c :: rest =>
    if pat ≠ [] && listIsPrefix pat (c :: rest) then
      rep ++ listReplaceAux fuel pat rep ((c :: rest).drop pat.length)
    else
      c :: listReplaceAux fuel pat rep rest

/-- Python's `s.replace(pat, rep)`. -/
def pyReplace (s pat rep : String) : String :=
  ⟨listReplaceAux s.toList.length pat.toList rep.toList s.toList⟩

/-- Python's `s.split(sep)` for a one-character separator, on character
lists: split at every single occurrence, keeping empty chunks. -/
def listSplitOn (sep : Char) : List Char → List (List Char)
  | [] => [[]]
  | c :: rest =>
    let r := listSplitOn sep rest
    if c = sep then [] :: r
    else
      match r with
      | [] => [[c]]
      | h :: t => (c :: h) :: t

/-- Python's `s.split(" ")` for strings. -/
def pySplitSpace (s : String) : List String :=
  (listSplitOn ' ' s.toList).map (fun l => ⟨l⟩)

/-- Python's `str.strip()` with no argument: remove leading and trailing
whitespace. -/
def pyStrip (s : String) : String :=
  ⟨((s.toList.dropWhile isPyWs).reverse.dropWhile isPyWs).reverse⟩
where
  isPyWs (c : Char) : Bool := c = ' ' || c = '\t' || c = '\n' || c = '\r'

/-- Python's `int(s)` on a nonempty all-digit string, `none` otherwise
(where `int()` raises `ValueError`). -/
def pyToNat? (s : String) : Option Nat :=
  if s.toList = [] then none
  else
    s.toList.foldl
      (fun acc c =>
        match acc with
        | some n => if 48 ≤ c.toNat && c.toNat ≤ 57 then some (n * 10 + (c.toNat - 48)) else none
        | none => none)
      (some 0)

/-- Python's lexicographic string comparison `a < b` (by code point),
spelled out so that it evaluates in the kernel. Used only to contrast
the version check with a lexical ordering. -/
def pyStrLt (a b : String) : Bool :=
  go a.toList b.toList
where
  go : List Char → List Char → Bool
    | [], [] => false
    | [], _ :: _ => true
    | _ :: _, [] => false
    | x :: xs, y :: ys =>
      decide (x.toNat < y.toNat) || (x == y && go xs ys)

/-! ## Command resolver (`actionsmap.py`, `MapAction.run`)

An argument value as produced by `MapActionArg.value` (a lookup in the
argparse namespace): `None`, a string, or a list of strings. -/

inductive Value where
  | vnone
  | vstr (s : String)
  | vlist (xs : List String)
deriving DecidableEq, Repr

/-- The guard `if value is None or value == []: return` at the top of
`handle_arg` in `MapAction.run`. -/
def skipValue : Value → Bool
  | .vnone => true
  | .vlist [] => true
  | _ => false

/-- `valuestring` in `handle_arg`: `"%20".join(value)` for a list,
`str(value)` otherwise. -/
def valueString : Value → String
  | .vstr s => s
  | .vlist xs => String.intercalate "%20" xs
  | .vnone => ""

/-- `replacestring = f"<{arg.varname}>"` in `handle_arg`. -/
def replacestring (varname : String) : String := "<" ++ varname ++ ">"

/-- The `uris` local of `MapAction.run`: initially `self.config["api"]`,
either one raw template string or a list of two candidates; substitution
may collapse the pair to a single string. -/
inductive Uris where
  | single (u : String)
  | pair (u0 u1 : String)
deriving DecidableEq, Repr

/-- The `params` dict of `MapAction.run`, as an association list with
Python-dict assignment semantics (`dictInsert` below). -/
abbrev Params := List (String × Value)

/-- Python dict assignment `d[k] = v`: overwrite in place if the key is
present, append otherwise. -/
def dictInsert : Params → String → Value → Params
  | [], k, v => [(k, v)]
  | (k', v') :: rest, k, v =>
    if k' = k then (k, v) :: rest else (k', v') :: dictInsert rest k v

/-- The mutable state threaded through `handle_arg`: the `uris`
nonlocal and the `params` dict. -/
structure ResolveState where
  uris : Uris
  params : Params
deriving DecidableEq, Repr

/-- The inner function `handle_arg` of `MapAction.run`
(`actionsmap.py` lines 95–121), for one declared argument with canonical
name `varname` whose fetched value is `value`:
skip absent/empty values; substitute into a single template when its
placeholder occurs there; with two candidate templates, substitute into
the one containing the placeholder when it occurs in exactly one of the
two (collapsing `uris` to that template); otherwise record the value in
`params` under `varname`. -/
def handle_arg (varname : String) (value : Value) (st : ResolveState) : ResolveState :=
  if skipValue value then st
  else
    let rs := replacestring varname
    let vs := valueString value
    match st.uris with
    | .single u =>
      if pyIn rs u then { st with uris := .single (pyReplace u rs vs) }
      else { st with params := dictInsert st.params varname value }
    | .pair u0 u1 =>
      if pyIn rs u0 && !pyIn rs u1 then
        { st with uris := .single (pyReplace u0 rs vs) }
      else if pyIn rs u1 && !pyIn rs u0 then
        { st with uris := .single (pyReplace u1 rs vs) }
      else
        { st with params := dictInsert st.params varname value }

/-- The loop `for arg in self.args: handle_arg(arg)` of
`MapAction.run`. `argDefs` lists the canonical variable names of the
action's declared arguments in order; `ns` is the parsed argparse
namespace (`MapActionArg.value` fetches `vars(args)[self.varname]`, so
two arguments sharing a canonical name fetch the same entry). -/
def runResolve (argDefs : List String) (ns : String → Value) (uris0 : Uris) : ResolveState :=
  argDefs.foldl (fun st v => handle_arg v (ns v) st) ⟨uris0, []⟩

/-- The final template selection of `MapAction.run`
(`actionsmap.py` lines 126–130): if `uris` is still a pair, take the
second candidate when the first still contains `<`, the first
otherwise. -/
def final_uris : Uris → String
  | .single u => u
  | .pair u0 u1 => if pyIn "<" u0 then u1 else u0

/-- `method, uri = uris.split(" ")` (`actionsmap.py` line 132): `none`
models the `ValueError` Python raises when the split does not yield
exactly two parts. -/
def methodUri (s : String) : Option (String × String) :=
  match pySplitSpace s with
  | [m, u] => some (m, u)
  | _ => none

/-- `MapAction.run` up to the point where the request descriptor
`(method, uri, params)` is handed to `server.request`. -/
def MapAction.run (argDefs : List String) (ns : String → Value) (uris0 : Uris) :
    Option (String × String × Params) :=
  let st := runResolve argDefs ns uris0
  match methodUri (final_uris st.uris) with
  | some (m, u) => some (m, u, st.params)
  | none => none

/-! ## Session manager (`server.py`)

### `Server.login` (lines 81–104)

State relevant to one login call: the contents of the on-disk token
cache file for the server profile (`Config().cache_dir / self.name`) and
the in-memory `yunohost.admin` session cookie. The server profile
(hostname, username, password) is assumed configured, as `login` reads
it unconditionally. -/

structure SessionState where
  cacheFile : Option String
  cookie : Option String
deriving DecidableEq, Repr

/-- Outcome of the credential `POST /login` issued by `Server.login`,
abstracting the network: a transport error (`httpx.RequestError`, caught
by `login`), some other exception escaping the call (not caught), an
HTTP error response (`result.is_error`), or a success response whose
`yunohost.admin` cookie carries `token` (httpx stores it in the session
cookie jar, and `login` copies it to the cache file). -/
inductive LoginNet where
  | transportError
  | otherError
  | httpError
  | ok (token : String)
deriving DecidableEq, Repr

/-- Result of one `Server.login` call: `outcome` is the returned boolean
together with the final session state, or `Except.error ()` when an
exception propagates; `posted` records the session state at the moment
the credential `POST /login` is issued (`none` when no network request
is made). -/
structure LoginRun where
  outcome : Except Unit (Bool × SessionState)
  posted : Option SessionState
deriving Repr

/-- `Server.login` (`server.py` lines 81–104). With `force` the cache
file is unlinked (`missing_ok=True`) and the session cookie deleted
(httpx's `Cookies.delete` is a no-op when absent) before anything else;
then, if the cache file exists, its stripped contents are adopted as the
session cookie and `True` is returned with no network call; otherwise
the credential `POST /login` is issued and its outcome converted as in
the source. -/
def Server.login (st : SessionState) (force : Bool) (net : LoginNet) : LoginRun :=
  let st1 := if force then { cacheFile := none, cookie := none } else st
  match st1.cacheFile with
  | some tok =>
    { outcome := .ok (true, { st1 with cookie := some (pyStrip tok) }), posted := none }
  | none =>
    match net with
    | .transportError => { outcome := .ok (false, st1), posted := some st1 }
    | .otherError => { outcome := .error (), posted := some st1 }
    | .httpError => { outcome := .ok (false, st1), posted := some st1 }
    | .ok token =>
      { outcome := .ok (true, { cacheFile := some token, cookie := some token }),
        posted := some st1 }

/-! ### `Server.request` (lines 120–126) and the forced re-login

`Server.request` issues the HTTP request; on a 401 with `retry_auth` it
calls `self.login(force=True)` and re-issues the request once. The
credential POST inside `login` itself goes through `self.post`, i.e.
through `Server.request` with the *default* `retry_auth=True`, so the
two functions are mutually recursive; the embedding makes the recursion
explicit with a fuel parameter (Python's analogue of exhausted fuel is
hitting the interpreter's recursion limit). The network is abstracted as
`respond n url`, the status code of the `n`-th HTTP request issued
during the call when addressed to `url`. -/

/-- Counters threaded through a `Server.request` call: `logins` counts
entries into `Server.login` (each one a forced re-login from the retry
path), `sent` the HTTP requests issued so far. -/
structure Trace where
  logins : Nat
  sent : Nat
deriving DecidableEq, Repr

/-- Result of a fueled `Server.request` call. -/
inductive RunResult where
  | outOfFuel (tr : Trace)
  | ok (status : Nat) (tr : Trace)
deriving DecidableEq, Repr

/-- Result of a fueled `Server.login` call from the retry path. -/
inductive LoginFRes where
  | outOfFuel (tr : Trace)
  | done (success : Bool) (tr : Trace)
deriving DecidableEq, Repr

/-- `result.is_error` in httpx: a 4xx or 5xx status. -/
def isError (status : Nat) : Bool := 400 ≤ status && status < 600

mutual

/-- `Server.request` (`server.py` lines 120–126): issue the request; if
the status is 401 (`httpx.codes.UNAUTHORIZED`) and `retry_auth` holds,
call `login(force=True)` (ignoring its boolean result) and issue the
request once more, returning that second response unmodified. -/
def Server.request : Nat → (Nat → String → Nat) → String → Bool → Trace → RunResult
  | 0, _, _, _, tr => .outOfFuel tr
  | fuel + 1, respond, url, retry_auth, tr =>
    let s := respond tr.sent url
    let tr1 : Trace := { tr with sent := tr.sent + 1 }
    if s = 401 && retry_auth then
      match Server.loginForced fuel respond tr1 with
      | .outOfFuel t => .outOfFuel t
      | .done _ t => .ok (respond t.sent url) { t with sent := t.sent + 1 }
    else
      .ok s tr1

/-- `Server.login(force=True)` as invoked from the retry path of
`Server.request` (`server.py` lines 81–104): the cache file was just
unlinked and the cookie deleted, so the cache-adoption branch cannot
fire and the credential `POST /login` is always issued — through
`self.post`, hence through `Server.request` with `retry_auth=True`.
`is_error` responses yield `False`, others `True`. -/
def Server.loginForced : Nat → (Nat → String → Nat) → Trace → LoginFRes
  | 0, _, tr => .outOfFuel tr
  | fuel + 1, respond, tr =>
    let tr1 : Trace := { tr with logins := tr.logins + 1 }
    match Server.request fuel respond "/login" true tr1 with
    | .outOfFuel t => .outOfFuel t
    | .ok s t => .done (!isError s) t

end

/-- Whether a fueled `Server.request` call returned (rather than running
out of fuel). -/
def RunResult.isOk : RunResult → Bool
  | .ok _ _ => true
  | .outOfFuel _ => false

/-- Whether a fueled `Server.loginForced` call returned. -/
def LoginFRes.isDone : LoginFRes → Bool
  | .done _ _ => true
  | .outOfFuel _ => false

/-! ### `Server.assert_version` (lines 106–113)

The server's reported version string is compared with `"12.1.0"` using
`packaging.version.Version`, i.e. PEP 440 ordering. Modelled here for
plain dotted numeric versions (the shape the server reports): the
release segments are compared as integer tuples after discarding
trailing zeros, exactly as `packaging`'s comparison key does. -/

/-- Parse a plain dotted numeric version string into its release
segments, `none` when some segment is not a number (where
`packaging.version.Version` would raise `InvalidVersion`). -/
def parseVersion (s : String) : Option (List Nat) :=
  ((listSplitOn '.' s.toList).map (fun l => (⟨l⟩ : String))).mapM pyToNat?

/-- `packaging`'s release comparison key: drop trailing zero segments. -/
def releaseKey (xs : List Nat) : List Nat :=
  (xs.reverse.dropWhile (· = 0)).reverse

/-- Python tuple `<` on integer lists: lexicographic, a strict prefix is
smaller. -/
def tupleLt : List Nat → List Nat → Bool
  | [], [] => false
  | [], _ :: _ => true
  | _ :: _, [] => false
  | a :: as, b :: bs =>
    if a < b then true else if b < a then false else tupleLt as bs

/-- `Version(a) < Version(b)` for plain numeric releases (PEP 440). -/
def versionLt (a b : List Nat) : Bool := tupleLt (releaseKey a) (releaseKey b)

/-- The message logged by `assert_version` when the server is too old. -/
def tooOldMsg (version : String) : String :=
  "Your server is too old! (server version=" ++ version ++ ", required>=12.1)"

/-- `Server.assert_version` (`server.py` lines 106–113), parameterised
by the version string fetched from `GET /versions` (the HTTP fetch
itself is assumed successful; on an error status `raise_for_status`
would throw before any comparison). Returns the boolean result together
with the log lines emitted; `none` models an `InvalidVersion`
exception. -/
def Server.assert_version (version : String) : Option (Bool × List String) :=
  match parseVersion version with
  | none => none
  | some rel =>
    if versionLt rel [12, 1, 0] then some (false, [tooOldMsg version])
    else some (true, [])

/-! ## Event stream (`SSEEvent` in `server.py`, `show_sse_log` in `cli.py`)

Event payloads are JSON objects; their values are modelled by `PyVal`
(the payload shapes the code touches: strings, booleans, numbers,
`null`). Fields of a constructed `SSEEvent` keep the dynamically typed
value exactly as the Python object does. -/

inductive PyVal where
  | vnone
  | vbool (b : Bool)
  | vnat (n : Nat)
  | vstr (s : String)
deriving DecidableEq, Repr

/-- Python truthiness of a payload value (`if event.success`,
`event.operation or ""`). -/
def truthy : PyVal → Bool
  | .vnone => false
  | .vbool b => b
  | .vnat n => n != 0
  | .vstr s => s != ""

/-- Python `str()` of a payload value, as interpolated by the f-strings
in `cli.py`. -/
def pyStr : PyVal → String
  | .vnone => "None"
  | .vbool true => "True"
  | .vbool false => "False"
  | .vnat n => toString n
  | .vstr s => s

/-- A decoded JSON payload: a Python dict from field names to values. -/
abbrev EventData := List (String × PyVal)

/-- Python `data.get(key, default)`. -/
def pyGet (data : EventData) (key : String) (dflt : PyVal) : PyVal :=
  match data.find? (fun p => p.1 = key) with
  | some p => p.2
  | none => dflt

/-- Python `data[key]`, raising `KeyError` (modelled as `Except.error`)
when the field is missing. -/
def pyIndex (data : EventData) (key : String) : Except Unit PyVal :=
  match data.find? (fun p => p.1 = key) with
  | some p => .ok p.2
  | none => .error ()

/-- The `SSEEvent.Type` enum (`server.py` lines 17–23). -/
inductive EvType where
  | recent_history
  | heartbeat
  | msg
  | toast
  | start
  | end_
deriving DecidableEq, Repr

/-- `SSEEvent.Type[type]` (`server.py` line 26): enum lookup by name,
raising `KeyError` for an unknown type tag. -/
def EvType.ofString : String → Except Unit EvType
  | "recent_history" => .ok .recent_history
  | "heartbeat" => .ok .heartbeat
  | "msg" => .ok .msg
  | "toast" => .ok .toast
  | "start" => .ok .start
  | "end" => .ok .end_
  | _ => .error ()

/-- A constructed `SSEEvent` (`server.py` lines 16–60), with the fields
the constructor assigns. -/
structure SSEEvent where
  type : EvType
  timestamp : PyVal
  operation : PyVal
  level : PyVal
  msg : PyVal
  title : PyVal
  started_by : PyVal
  success : PyVal
  cmdline : PyVal
deriving DecidableEq, Repr

/-- The `SSEEvent` constructor (`server.py` lines 25–60): resolve the
type tag, take `timestamp`/`operation` with their fallbacks, then fill
the type-specific fields via `as_msg`/`as_start`/`as_end`/`as_heartbeat`
(note the source routes `recent_history` through `as_end` too). A missing
mandatory field raises `KeyError`, modelled as `Except.error ()`. -/
def SSEEvent.make (type : String) (data : EventData) : Except Unit SSEEvent := do
  let t ← EvType.ofString type
  let e0 : SSEEvent :=
    { type := t
      timestamp := pyGet data "timestamp" (pyGet data "started_at" (.vnat 0))
      operation := pyGet data "operation_id" (pyGet data "current_operation" .vnone)
      level := .vnone
      msg := .vstr ""
      title := .vstr ""
      started_by := .vnone
      success := .vnone
      cmdline := .vnone }
  let e1 ←
    if t = .msg ∨ t = .toast then do
      let lv ← pyIndex data "level"
      let m ← pyIndex data "msg"
      pure { e0 with level := lv, msg := m }
    else pure e0
  let e2 ←
    if t = .start then do
      let ti ← pyIndex data "title"
      let sb ← pyIndex data "started_by"
      pure { e1 with title := ti, started_by := sb }
    else pure e1
  let e3 ←
    if t = .end_ then do
      let su ← pyIndex data "success"
      let m ← pyIndex data "errormsg"
      pure { e2 with success := su, msg := m }
    else pure e2
  let e4 ←
    if t = .recent_history then do
      let su ← pyIndex data "success"
      let m ← pyIndex data "errormsg"
      pure { e3 with success := su, msg := m }
    else pure e3
  if t = .heartbeat then do
    let c ← pyIndex data "cmdline"
    pure { e4 with cmdline := c }
  else pure e4

/-! ### `show_sse_log` (`cli.py` lines 53–99)

One `CONSOLE.print` call is modelled as a list of printed parts; a
part is a formatted date, a level tag (`level_str`), or plain text. -/

inductive PrintPart where
  | date (t : PyVal)
  | level (name : String)
  | text (s : String)
deriving DecidableEq, Repr

/-- `level_str` (`cli.py` lines 28–38): the `styles` dict only knows
these four levels; any other level raises `KeyError`. -/
def level_str (lv : String) : Except Unit PrintPart :=
  if lv = "success" ∨ lv = "info" ∨ lv = "warning" ∨ lv = "error" then
    .ok (.level lv)
  else .error ()

/-- A single ASCII apostrophe, as used by `safe_quote`. -/
def squote : String := String.singleton (Char.ofNat 39)

/-- `safe_quote` (`cli.py` lines 46–47). -/
def safe_quote (v : PyVal) : String :=
  "[repr.str]" ++ squote ++ pyStr v ++ squote ++ "[reset]"

/-- The module-level `OPERATIONS` dict of `cli.py`, keyed by the
operation identifier carried by `start` events. -/
abbrev OpsMap := List (PyVal × SSEEvent)

/-- Lookup in `OPERATIONS`. -/
def opsLookup : OpsMap → PyVal → Option SSEEvent
  | [], _ => none
  | (k, e) :: rest, key => if k = key then some e else opsLookup rest key

/-- Removal from `OPERATIONS` (the effect of `dict.pop` when the key is
present). -/
def opsErase : OpsMap → PyVal → OpsMap
  | [], _ => []
  | (k, e) :: rest, key => if k = key then rest else (k, e) :: opsErase rest key

/-- `OPERATIONS[key] = event` (dict assignment). -/
def opsInsert : OpsMap → PyVal → SSEEvent → OpsMap
  | [], key, e => [(key, e)]
  | (k, e') :: rest, key, e =>
    if k = key then (key, e) :: rest else (k, e') :: opsInsert rest key e

/-- `show_sse_log` (`cli.py` lines 53–99): the CLI's SSE handler.
Returns the updated `OPERATIONS` map and the list of `CONSOLE.print`
calls emitted, or `Except.error ()` when the Python code would raise
(a failed `assert`, or `level_str` on an unknown level) — such an
exception is caught per-event by `Server.sse_logs`. The debug dump of
the raw event (active only at DEBUG log level) is not modelled. The
source's final "Unknown SSE log kind" branch is unreachable because
`SSEEvent.Type` membership is checked at construction. -/
def show_sse_log (ops : OpsMap) (e : SSEEvent) (history : Bool) :
    Except Unit (OpsMap × List (List PrintPart)) :=
  if e.type = .heartbeat then .ok (ops, [])
  else
    let dateprint := PrintPart.date e.timestamp
    if e.type = .recent_history then
      if !history then .ok (ops, [])
      else if e.operation = PyVal.vnone then .error ()
      else do
        let lp ← level_str
          (if e.success = PyVal.vstr "?" then "running"
           else if truthy e.success then "success" else "error")
        .ok (ops,
          [[.text "Recent history", dateprint, lp,
            .text ("Operation " ++ safe_quote e.title),
            .text ("(started by " ++ pyStr e.started_by ++ ")")]])
    else if e.type = .start then
      if e.operation = PyVal.vnone then .error ()
      else do
        let lp ← level_str "info"
        .ok (opsInsert ops e.operation e,
          [[dateprint, lp,
            .text (pyStr e.title ++ "... (Started by " ++ pyStr e.started_by ++ ")")]])
    else if e.type = .end_ then
      let key := if truthy e.operation then e.operation else PyVal.vstr ""
      let start_event := opsLookup ops key
      let ops' := match start_event with
        | some _ => opsErase ops key
        | none => ops
      let verb := if truthy e.success then "finished" else "failed"
      let msg := match start_event with
        | some se =>
          "Operation " ++ safe_quote se.title ++ " started by " ++
            pyStr se.started_by ++ " " ++ verb ++ "!"
        | none =>
          "Operation " ++ safe_quote e.operation ++ " " ++ verb ++
            " (sorry, no more info available)!"
      do
        let lp ← level_str (if truthy e.success then "success" else "error")
        .ok (ops',
          [dateprint, lp, .text msg] ::
            (if truthy e.success then [] else [[dateprint, lp, .text (pyStr e.msg)]]))
    else
      -- remaining types: msg, toast
      if e.level = PyVal.vnone then .error ()
      else do
        let lp ← level_str (pyStr e.level)
        .ok (ops, [[dateprint, lp, .text (pyStr e.msg)]])

/-! ### `Server.sse_logs` (`server.py` lines 137–154)

The stream consumer loop. Each raw inbound SSE frame carries a type tag
(`sse.event`) and a data string (`sse.data`); the latter is modelled as
already classified: empty, invalid JSON, or a decoded object.
`json.loads` runs *outside* the per-event `try`, so an invalid payload
raises to the outer handler, which logs at debug level and ends the
whole stream; exceptions from `SSEEvent` construction or from the
handler are caught per event. -/

inductive RawData where
  | empty
  | invalid
  | parsed (fields : EventData)
deriving DecidableEq, Repr

structure RawEvent where
  event : String
  data : RawData
deriving DecidableEq, Repr

/-- Per-event outcome of the consumer loop. -/
inductive EventOutcome where
  | skippedNoData
  | handled (e : SSEEvent)
  | errorLogged
deriving DecidableEq, Repr

/-- Result of consuming a stream: the outcomes of the events actually
processed, and whether the stream was aborted by the outer exception
handler (leaving later events unprocessed). -/
structure StreamRun where
  outcomes : List EventOutcome
  aborted : Bool
deriving DecidableEq, Repr

/-- `Server.sse_logs` (`server.py` lines 137–154) over a finite list of
inbound frames, with the registered handler abstracted as a function
that either returns or raises. Frames with empty data are skipped; a
frame whose data is not valid JSON raises `json.JSONDecodeError` outside
the per-event `try`, so the outer `except` ends the stream; a `KeyError`
from `SSEEvent` construction or any exception from the handler is caught
per event (`"Error while parsing the sse logs"`) and the loop
continues. -/
def Server.sse_logs (handler : SSEEvent → Except Unit Unit) :
    List RawEvent → StreamRun
  | [] => { outcomes := [], aborted := false }
  | ev :: rest =>
    match ev.data with
    | .empty =>
      let r := Server.sse_logs handler rest
      { r with outcomes := .skippedNoData :: r.outcomes }
    | .invalid => { outcomes := [], aborted := true }
    | .parsed fields =>
      match (do
        let e ← SSEEvent.make ev.event fields
        let _ ← handler e
        pure e : Except Unit SSEEvent) with
      | .ok e =>
        let r := Server.sse_logs handler rest
        { r with outcomes := .handled e :: r.outcomes }
      | .error _ =>
        let r := Server.sse_logs handler rest
        { r with outcomes := .errorLogged :: r.outcomes }

/-! ## Helper lemmas -/

/-- `listIsPrefix` is transitive. -/
theorem listIsPrefix_trans : ∀ (p q s : List Char), listIsPrefix p q = true →
    listIsPrefix q s = true → listIsPrefix p s = true
  | [], _, _, _, _ => rfl
  | _ :: _, [], _, h, _ => by simp [listIsPrefix] at h
  | _ :: _, _ :: _, [], _, h => by simp [listIsPrefix] at h
  | a :: as, b :: bs, c :: cs, h1, h2 => by
    simp only [listIsPrefix, Bool.and_eq_true, beq_iff_eq] at h1 h2 ⊢
    exact ⟨h1.1.trans h2.1, listIsPrefix_trans as bs cs h1.2 h2.2⟩

/-- If `p` is a prefix of `q`, any string containing `q` contains `p`. -/
theorem listContains_mono : ∀ (p q s : List Char), listIsPrefix p q = true →
    listContains q s = true → listContains p s = true
  | p, q, [], hpq, h => by
    simp only [listContains] at h ⊢
    exact listIsPrefix_trans p q [] hpq h
  | p, q, c :: rest, hpq, h => by
    simp only [listContains, Bool.or_eq_true] at h ⊢
    rcases h with h | h
    · exact Or.inl (listIsPrefix_trans p q (c :: rest) hpq h)
    · exact Or.inr (listContains_mono p q rest hpq h)

/-- A template containing the placeholder `<v>` contains `<`. -/
theorem pyIn_lt_of_replacestring (v a : String)
    (h : pyIn (replacestring v) a = true) : pyIn "<" a = true := by
  apply listContains_mono _ _ _ _ h
  have hl : (replacestring v).toList = '<' :: (v.toList ++ ">".toList) := by
    simp [replacestring, String.toList, String.data_append]
  rw [hl]
  simp [listIsPrefix, String.toList]

/-- Against a server that answers 401 to everything, the mutually
recursive `Server.request`/`Server.loginForced` pair never returns, at
any fuel. -/
theorem all401_never_returns (fuel : Nat) :
    (∀ (url : String) (tr : Trace),
      (Server.request fuel (fun _ _ => 401) url true tr).isOk = false)
    ∧ (∀ tr : Trace,
      (Server.loginForced fuel (fun _ _ => 401) tr).isDone = false) := by
  induction fuel with
  | zero => exact ⟨fun _ _ => rfl, fun _ => rfl⟩
  | succ n ih =>
    constructor
    · intro url tr
      cases hl : Server.loginForced n (fun _ _ => 401) { tr with sent := tr.sent + 1 } with
      | outOfFuel t => simp [Server.request, hl, RunResult.isOk]
      | done b t =>
        exfalso
        have h2 := ih.2 { tr with sent := tr.sent + 1 }
        rw [hl] at h2
        simp [LoginFRes.isDone] at h2
    · intro tr
      cases hr : Server.request n (fun _ _ => 401) "/login" true { tr with logins := tr.logins + 1 } with
      | outOfFuel t => simp [Server.loginForced, hr, LoginFRes.isDone]
      | ok s t =>
        exfalso
        have h1 := ih.1 "/login" { tr with logins := tr.logins + 1 }
        rw [hr] at h1
        simp [RunResult.isOk] at h1

/-- The benign retry path: if the first response to the business request
is 401 but the credential endpoint does not itself answer 401, one
forced re-login happens, the request is retried once, and the second
response is returned as-is (even when it is again 401). -/
theorem request_single_relogin (fuel : Nat) (respond : Nat → String → Nat) (url : String)
    (h0 : respond 0 url = 401) (hl : ¬ respond 1 "/login" = 401) :
    Server.request (fuel + 3) respond url true ⟨0, 0⟩ =
      .ok (respond 2 url) ⟨1, 3⟩ := by
  rw [show fuel + 3 = (fuel + 2) + 1 from rfl]
  simp only [Server.request, h0]
  rw [show fuel + 2 = (fuel + 1) + 1 from rfl]
  simp only [Server.loginForced]
  rw [show fuel + 1 = fuel + 1 from rfl]
  simp only [Server.request, hl]
  simp [hl]

/-! ## Claims -/

/-- C1: the claim says a first 401 triggers exactly one forced re-login
and one retry, with no execution path performing more than one re-login
per `Server.request` call. The code violates this: the re-login's own
`POST /login` goes through `Server.request` with `retry_auth=True`, so a
server answering 401 to `POST /login` (permanently invalid credentials)
makes `request` and `login` recurse into each other; the call never
returns and performs one re-login per recursion level (five within fuel
10 below), instead of surfacing the second 401 after a single
re-login. -/
theorem request_relogin_unbounded_when_login_unauthorized :
    Server.request 10 (fun _ _ => 401) "/x" true ⟨0, 0⟩ = .outOfFuel ⟨5, 5⟩
    ∧ ∀ (fuel : Nat) (url : String) (tr : Trace),
        (Server.request fuel (fun _ _ => 401) url true tr).isOk = false :=
  ⟨by decide, fun fuel url tr => (all401_never_returns fuel).1 url tr⟩

/-- C2: counterexample to the claim that resolution fails with
`DuplicateArgumentError` when two distinct argument definitions map to
the same canonical name: `MapAction.run` has no such error and resolves
successfully, the second write overwriting the first entry in `params`
(both fetch the same namespace value). -/
theorem resolver_accepts_duplicate_canonical_names :
    MapAction.run ["x", "x"] (fun _ => .vstr "1") (.single "GET /test") =
      some ("GET", "/test", [("x", Value.vstr "1")]) := by decide

/-- C2 (amended): two argument definitions sharing the canonical name
`v` both fetch `ns v` from the argparse namespace; resolution does not
fail, and the parameter dict ends with a single entry for `v`, the later
(identical) write overwriting the earlier one. -/
theorem resolver_duplicate_canonical_name_overwrites (u v : String) (ns : String → Value)
    (hph : pyIn (replacestring v) u = false) (hskip : skipValue (ns v) = false) :
    runResolve [v, v] ns (.single u) = ⟨.single u, [(v, ns v)]⟩ := by
  simp [runResolve, handle_arg, hph, hskip, dictInsert]

theorem resolver_duplicate_canonical_name_overwrites_witness :
    runResolve ["x", "x"] (fun _ => .vstr "wordpress") (.single "GET /apps") =
      ⟨.single "GET /apps", [("x", Value.vstr "wordpress")]⟩ :=
  resolver_duplicate_canonical_name_overwrites "GET /apps" "x"
    (fun _ => .vstr "wordpress") (by decide) (by decide)

/-- C3: with two URI template candidates and an argument whose
placeholder `<v>` occurs in exactly one of them, a supplied value is
substituted into the containing template, discarding the other
(whichever position it is listed in); an omitted value leaves the pair
untouched, and the final selection then picks the other template
(provided that other template has no placeholder left). -/
theorem two_templates_placeholder_in_exactly_one (a b v : String)
    (h1 : pyIn (replacestring v) a = true) (h2 : pyIn (replacestring v) b = false) :
    (∀ (value : Value) (ps : Params), skipValue value = false →
        handle_arg v value ⟨.pair a b, ps⟩ =
          ⟨.single (pyReplace a (replacestring v) (valueString value)), ps⟩)
    ∧ (∀ (value : Value) (ps : Params), skipValue value = false →
        handle_arg v value ⟨.pair b a, ps⟩ =
          ⟨.single (pyReplace a (replacestring v) (valueString value)), ps⟩)
    ∧ (∀ (value : Value) (ps : Params), skipValue value = true →
        handle_arg v value ⟨.pair a b, ps⟩ = ⟨.pair a b, ps⟩)
    ∧ (pyIn "<" b = false →
        final_uris (.pair a b) = b ∧ final_uris (.pair b a) = b) := by
  refine ⟨?_, ?_, ?_, ?_⟩
  · intro value ps hv
    simp [handle_arg, hv, h1, h2]
  · intro value ps hv
    simp [handle_arg, hv, h1, h2]
  · intro value ps hv
    simp [handle_arg, hv]
  · intro hb
    have ha : pyIn "<" a = true := pyIn_lt_of_replacestring v a h1
    simp [final_uris, ha, hb]

theorem two_templates_placeholder_in_exactly_one_witness :
    handle_arg "domain" (.vstr "example.com")
        ⟨.pair "GET /domains/<domain>" "GET /domains", []⟩ =
      ⟨.single "GET /domains/example.com", []⟩
    ∧ final_uris (.pair "GET /domains/<domain>" "GET /domains") = "GET /domains" := by
  have h := two_templates_placeholder_in_exactly_one
    "GET /domains/<domain>" "GET /domains" "domain" (by decide) (by decide)
  constructor
  · rw [h.1 (.vstr "example.com") [] (by decide)]; decide
  · exact (h.2.2.2 (by decide)).1

/-- C4: after all substitutions, when the resolver still holds two
template candidates and exactly one of them is free of placeholders
(no `<` left), the final selection deterministically picks the
placeholder-free one, in either order. -/
theorem final_selection_prefers_placeholder_free
    (argDefs : List String) (ns : String → Value) (uris0 : Uris)
    (a b : String) (hres : (runResolve argDefs ns uris0).uris = .pair a b) :
    (pyIn "<" a = false → pyIn "<" b = true →
      final_uris (runResolve argDefs ns uris0).uris = a)
    ∧ (pyIn "<" a = true → pyIn "<" b = false →
      final_uris (runResolve argDefs ns uris0).uris = b) := by
  rw [hres]
  constructor
  · intro ha _hb; simp [final_uris, ha]
  · intro ha _hb; simp [final_uris, ha]

theorem final_selection_prefers_placeholder_free_witness :
    final_uris (runResolve [] (fun _ => Value.vnone)
        (.pair "GET /domains" "POST /domains/<domain>")).uris = "GET /domains"
    ∧ final_uris (runResolve [] (fun _ => Value.vnone)
        (.pair "POST /domains/<domain>" "GET /domains")).uris = "GET /domains" := by
  constructor
  · exact (final_selection_prefers_placeholder_free [] (fun _ => Value.vnone)
      (.pair "GET /domains" "POST /domains/<domain>")
      "GET /domains" "POST /domains/<domain>" rfl).1 (by decide) (by decide)
  · exact (final_selection_prefers_placeholder_free [] (fun _ => Value.vnone)
      (.pair "POST /domains/<domain>" "GET /domains")
      "POST /domains/<domain>" "GET /domains" rfl).2 (by decide) (by decide)

/-- C10: an argument whose placeholder occurs in both templates or in
neither performs no substitution: the pair is left unchanged and the
value is recorded in `params` under the canonical name; and when both
templates still contain a placeholder at selection time, the second
listed template is picked. -/
theorem placeholder_in_both_or_neither_goes_to_params (a b v : String)
    (hsame : pyIn (replacestring v) a = pyIn (replacestring v) b) :
    (∀ (value : Value) (ps : Params), skipValue value = false →
        handle_arg v value ⟨.pair a b, ps⟩ = ⟨.pair a b, dictInsert ps v value⟩)
    ∧ (pyIn "<" a = true → pyIn "<" b = true → final_uris (.pair a b) = b) := by
  constructor
  · intro value ps hv
    cases hcase : pyIn (replacestring v) a <;>
      simp [handle_arg, hv, hcase, hsame ▸ hcase, ← hsame]
  · intro ha _hb; simp [final_uris, ha]

theorem placeholder_in_both_or_neither_goes_to_params_witness :
    handle_arg "force" (.vstr "1")
        ⟨.pair "GET /settings/<key>" "POST /settings/<key>", []⟩ =
      ⟨.pair "GET /settings/<key>" "POST /settings/<key>", [("force", Value.vstr "1")]⟩
    ∧ final_uris (.pair "GET /settings/<key>" "POST /settings/<key>") =
        "POST /settings/<key>" := by
  have h := placeholder_in_both_or_neither_goes_to_params
    "GET /settings/<key>" "POST /settings/<key>" "force" (by decide)
  constructor
  · rw [h.1 (.vstr "1") [] (by decide)]; decide
  · exact h.2 (by decide) (by decide)

/-- C5: `login(force=True)` discards the cached token — the on-disk
cache file is unlinked and the in-memory session cookie deleted — before
the credential `POST /login` is attempted (the state at the moment of
the POST carries neither), for every network outcome, and the discard
persists when the network call fails (HTTP error or caught transport
error). -/
theorem login_force_discards_token_before_post (st : SessionState) :
    (∀ net, (Server.login st true net).posted =
        some { cacheFile := none, cookie := none })
    ∧ (Server.login st true .httpError).outcome =
        Except.ok (false, { cacheFile := none, cookie := none })
    ∧ (Server.login st true .transportError).outcome =
        Except.ok (false, { cacheFile := none, cookie := none }) := by
  refine ⟨fun net => ?_, rfl, rfl⟩
  cases net <;> rfl

/-- C6: `login(force=False)` with an existing cached token file adopts
the (stripped) token into the session cookie and returns `True` with no
network request, whatever the network would have answered. -/
theorem login_adopts_cached_token_without_network
    (st : SessionState) (tok : String) (net : LoginNet)
    (hc : st.cacheFile = some tok) :
    Server.login st false net =
      { outcome := Except.ok (true, { st with cookie := some (pyStrip tok) }),
        posted := none } := by
  simp [Server.login, hc]

theorem login_adopts_cached_token_without_network_witness :
    Server.login { cacheFile := some " token ", cookie := none } false .httpError =
      { outcome := Except.ok (true, { cacheFile := some " token ", cookie := some "token" }),
        posted := none } := by
  have h := login_adopts_cached_token_without_network
    { cacheFile := some " token ", cookie := none } " token " .httpError rfl
  rw [h]; rfl

/-- C9: the version gate compares the fetched version with the minimum
`12.1.0` by PEP 440 release-tuple ordering, not lexically: `12.10.0`
passes the gate; every parsed version semantically below `12.1.0` makes
`assert_version` log and return `false` (it returns a value rather than
raising); and `2.9.9` is rejected although the lexical string ordering
would place it above `12.1.0`. -/
theorem assert_version_semantic_not_lexical :
    Server.assert_version "12.10.0" = some (true, [])
    ∧ (∀ (v : String) (rel : List Nat), parseVersion v = some rel →
        versionLt rel [12, 1, 0] = true →
        Server.assert_version v = some (false, [tooOldMsg v]))
    ∧ Server.assert_version "2.9.9" = some (false, [tooOldMsg "2.9.9"])
    ∧ pyStrLt "12.1.0" "2.9.9" = true := by
  refine ⟨by decide, ?_, by decide, by decide⟩
  intro v rel hp hlt
  simp [Server.assert_version, hp, hlt]

theorem assert_version_semantic_not_lexical_witness :
    parseVersion "12.0.9" = some [12, 0, 9]
    ∧ versionLt [12, 0, 9] [12, 1, 0] = true
    ∧ Server.assert_version "12.0.9" = some (false, [tooOldMsg "12.0.9"]) := by
  refine ⟨by decide, by decide, ?_⟩
  exact assert_version_semantic_not_lexical.2.1 "12.0.9" [12, 0, 9] (by decide) (by decide)

/-- C7: an `end` event whose operation id has no entry in the in-flight
`OPERATIONS` map is never dropped: `show_sse_log` still emits a rendered
notice built from the operation id and the outcome only (the degraded
"no more info available" message), plus the error text when the
operation failed; the map is left unchanged. -/
theorem end_event_without_start_is_reported
    (ops : OpsMap) (e : SSEEvent) (history : Bool)
    (hty : e.type = .end_)
    (hmiss : opsLookup ops
      (if truthy e.operation then e.operation else PyVal.vstr "") = none) :
    show_sse_log ops e history =
      Except.ok (ops,
        [PrintPart.date e.timestamp,
         PrintPart.level (if truthy e.success then "success" else "error"),
         PrintPart.text ("Operation " ++ safe_quote e.operation ++ " " ++
           (if truthy e.success then "finished" else "failed") ++
           " (sorry, no more info available)!")] ::
          (if truthy e.success then []
           else [[PrintPart.date e.timestamp, PrintPart.level "error",
                  PrintPart.text (pyStr e.msg)]])) := by
  cases hs : truthy e.success <;>
    · simp [show_sse_log, hty, hmiss, hs, level_str]
      rfl

theorem end_event_without_start_is_reported_witness :
    show_sse_log []
        { type := .end_, timestamp := .vnat 7, operation := .vstr "42",
          level := .vnone, msg := .vstr "disk full", title := .vstr "",
          started_by := .vnone, success := .vbool false, cmdline := .vnone }
        false =
      Except.ok ([],
        [[PrintPart.date (.vnat 7), PrintPart.level "error",
          PrintPart.text ("Operation [repr.str]" ++ squote ++ "42" ++ squote ++
            "[reset] failed (sorry, no more info available)!")],
         [PrintPart.date (.vnat 7), PrintPart.level "error",
          PrintPart.text "disk full"]]) := by
  have h := end_event_without_start_is_reported []
    { type := .end_, timestamp := .vnat 7, operation := .vstr "42",
      level := .vnone, msg := .vstr "disk full", title := .vstr "",
      started_by := .vnone, success := .vbool false, cmdline := .vnone }
    false rfl rfl
  rw [h]; rfl

/-- C8: counterexample to the claim that any malformed payload is caught
at the scope of a single event: a frame whose data is not valid JSON
raises in `json.loads`, which runs outside the per-event `try`, so the
outer handler ends the whole stream and the following (well-formed)
frame is never processed. -/
theorem invalid_json_payload_aborts_stream :
    Server.sse_logs (fun _ => .ok ())
        [{ event := "msg", data := .invalid },
         { event := "heartbeat", data := .parsed [("cmdline", .vstr "x")] }] =
      { outcomes := [], aborted := true } := by decide

/-- C8 (amended): a payload that decodes as JSON but makes `SSEEvent`
construction raise (e.g. a missing mandatory field) is caught per event
— the event is logged and skipped and the remaining frames are processed
— whereas a payload that is not valid JSON raises outside the per-event
`try` and silently terminates the stream. -/
theorem missing_field_payload_skipped_per_event
    (handler : SSEEvent → Except Unit Unit) (ty : String)
    (fields : EventData) (rest : List RawEvent)
    (hbad : SSEEvent.make ty fields = .error ()) :
    Server.sse_logs handler ({ event := ty, data := .parsed fields } :: rest) =
      { outcomes := .errorLogged :: (Server.sse_logs handler rest).outcomes,
        aborted := (Server.sse_logs handler rest).aborted }
    ∧ ∀ evs, Server.sse_logs handler ({ event := ty, data := .invalid } :: evs) =
        { outcomes := [], aborted := true } := by
  constructor
  · simp only [Server.sse_logs]
    rw [hbad]
    rfl
  · intro evs; simp [Server.sse_logs]

theorem missing_field_payload_skipped_per_event_witness :
    Server.sse_logs (fun _ => .ok ())
        [{ event := "msg", data := .parsed [("level", .vstr "info")] },
         { event := "heartbeat", data := .parsed [("cmdline", .vstr "x")] }] =
      { outcomes := [.errorLogged,
          .handled (SSEEvent.mk .heartbeat (.vnat 0) .vnone .vnone (.vstr "")
            (.vstr "") .vnone .vnone (.vstr "x"))],
        aborted := false } := by
  have h := missing_field_payload_skipped_per_event (fun _ => .ok ()) "msg"
    [("level", .vstr "info")]
    [{ event := "heartbeat", data := .parsed [("cmdline", .vstr "x")] }] rfl
  rw [h.1]; rfl
